import Mathlib

/-!
Verification of the poysa-proxy Cloudflare worker (`src/worker.js`).

The repository file contains two near-duplicate revisions of the worker;
the embedding below follows the current (first) revision — the one with the
PURGE-secret check, the `upstreamResponse.ok` guard and the `X-Cache-Status`
markers.  The worker is a pure request → response function once its external
collaborators are made explicit, so the embedding passes them as arguments:

* the edge cache (`caches.default`) is a key-value list keyed by the request
  URL, per the Cache API's match/put/delete semantics;
* the upstream service is an oracle `UpstreamResponse` giving the response
  the upstream would return if called; whether it was actually called is
  recorded in the result;
* `ctx.waitUntil(cache.put ...)` is recorded as a deferred put effect;
* `new Date().toISOString()` is a `now : String` parameter.

Header maps model JS `Headers` objects: ordered name/value lists with
case-insensitive `get`/`set`.  A nullable JS string (`headers.get(...)`,
environment bindings) is an `Option String`; the code only ever tests such
values for truthiness, which `jsTruthy` mirrors (both `null`/`undefined`
and the empty string are falsy).
-/

namespace PoysaProxy

/-- JS truthiness of a nullable string: `null`/`undefined` and `""` are falsy. -/
def jsTruthy (o : Option String) : Bool :=
  !(o.getD "" == "")

/-- Whether `pat` occurs as a contiguous run inside `l`. -/
def containsGo (pat : List Char) : List Char → Bool
  | [] => pat.isEmpty
  | c :: rest => pat.isPrefixOf (c :: rest) || containsGo pat rest

/-- JS `hay.includes(pat)` (substring containment). -/
def strContains (hay pat : String) : Bool :=
  containsGo pat.toList hay.toList

/-- JS `s.startsWith(pre)`. -/
def strStartsWith (s pre : String) : Bool :=
  pre.toList.isPrefixOf s.toList

/-- JS `s.split(',')`, accumulating the current field in reverse. -/
def splitCommaGo : List Char → List Char → List String
  | acc, [] => [String.mk acc.reverse]
  | acc, ',' :: rest => String.mk acc.reverse :: splitCommaGo [] rest
  | acc, c :: rest => splitCommaGo (c :: acc) rest

/-- JS `s.split(',')`. -/
def splitComma (s : String) : List String :=
  splitCommaGo [] s.toList

/-- JS `s.toLowerCase()` (ASCII; the worker only lowercases ASCII header values). -/
def strToLower (s : String) : String :=
  String.mk (s.toList.map Char.toLower)

/-! ## Headers -/

/-- An ordered header list, as in a JS `Headers` object. -/
abbrev HeaderList := List (String × String)

/-- Case-insensitive header-name equality, as used by JS `Headers`. -/
def lowEq (a b : String) : Bool :=
  strToLower a == strToLower b

/-- JS `headers.get(k)`. -/
def getH : HeaderList → String → Option String
  | [], _ => none
  | kv :: rest, k => if lowEq kv.1 k then some kv.2 else getH rest k

/-- Drop every entry whose name matches `k` case-insensitively. -/
def removeH : HeaderList → String → HeaderList
  | [], _ => []
  | kv :: rest, k => if lowEq kv.1 k then removeH rest k else kv :: removeH rest k

/-- JS `headers.set(k, v)`: replace the first matching entry in place and
drop any further ones, else append. -/
def setH : HeaderList → String → String → HeaderList
  | [], k, v => [(k, v)]
  | kv :: rest, k, v =>
    if lowEq kv.1 k then (kv.1, v) :: removeH rest k
    else kv :: setH rest k v

/-- Apply every `(k, v)` of `overrides` to `base` via `set`, in order — the
worker's `Object.entries(corsHeaders).forEach(([k, v]) => headers.set(k, v))`. -/
def applyCors (base : HeaderList) (overrides : HeaderList) : HeaderList :=
  overrides.foldl (fun acc kv => setH acc kv.1 kv.2) base

/-! ## Data model -/

/-- The parts of `new URL(request.url)` the worker reads. -/
structure Url where
  pathname : String
  search : String
  /-- `url.href` = `url.toString()`, the full serialized URL. -/
  href : String
  deriving DecidableEq, Repr

/-- An inbound request, restricted to the fields the worker consumes.
Header values are nullable strings as returned by `request.headers.get`.
(The remaining inbound headers are only ever forwarded verbatim upstream,
which no claim observes, so they are not modelled.) -/
structure Request where
  method : String
  url : Url
  /-- `request.headers.get("origin")` -/
  origin : Option String
  /-- `request.headers.get("user-agent")` -/
  userAgent : Option String
  /-- `request.headers.get("Access-Control-Request-Headers")` -/
  acrh : Option String
  /-- `request.headers.get("X-Purge-Secret")` -/
  xPurgeSecret : Option String
  deriving DecidableEq, Repr

/-- The worker's environment bindings; a missing binding is `none`. -/
structure Env where
  SUPABASE_URL : Option String
  SUPABASE_KEY : Option String
  PURGE_SECRET : Option String
  ALLOWED_ORIGINS : Option String
  ENVIRONMENT : Option String
  deriving DecidableEq, Repr

/-- The response the upstream would give to the forwarded request. -/
structure UpstreamResponse where
  status : Nat
  statusText : String
  headers : HeaderList
  body : String
  deriving DecidableEq, Repr

/-- A previously stored cache entry (status, headers, body). -/
structure CachedEntry where
  status : Nat
  statusText : String
  headers : HeaderList
  body : String
  deriving DecidableEq, Repr

/-- The edge cache: entries keyed by serialized request URL, per the Cache
API's URL-keyed match/put/delete semantics. -/
abbrev Cache := List (String × CachedEntry)

/-- Cache API `cache.match`, keyed by URL. -/
def cacheFind : Cache → String → Option CachedEntry
  | [], _ => none
  | e :: rest, k => if e.1 = k then some e.2 else cacheFind rest k

/-- Response bodies, kept structural: the JSON payloads the worker
synthesizes are represented by dedicated constructors rather than by
re-implementing `JSON.stringify`. -/
inductive Body where
  /-- `null` body (the 204 preflight response). -/
  | null
  /-- A plain-text body. -/
  | text (s : String)
  /-- `JSON.stringify({ status: "ok", timestamp })` -/
  | healthJson (timestamp : String)
  /-- `JSON.stringify({ purged: false, error })` -/
  | purgeError (error : String)
  /-- `JSON.stringify({ purged, url, timestamp })` -/
  | purgeResult (purged : Bool) (url : String) (timestamp : String)
  /-- A body passed through from the upstream or the cache. -/
  | raw (s : String)
  deriving DecidableEq, Repr

/-- An outbound response. -/
structure Response where
  status : Nat
  statusText : String
  headers : HeaderList
  body : Body
  deriving DecidableEq, Repr

/-- The observable outcome of one worker invocation: the response plus the
external-effect record (upstream call, cache lookups/deletes, and the
deferred `ctx.waitUntil(cache.put ...)` writes). Effect entries are
`(method, url)` pairs of the keying request. -/
structure FetchResult where
  response : Response
  upstreamCalled : Bool
  cacheLookups : List (String × String)
  cacheDeletes : List (String × String)
  cachePuts : List (String × String)
  deriving DecidableEq, Repr

/-- Wrap a terminal response that performed no external effect. -/
def noEffect (r : Response) : FetchResult :=
  { response := r, upstreamCalled := false, cacheLookups := [], cacheDeletes := [], cachePuts := [] }

/-! ## Configuration (`CONFIG` in the source) -/

/-- `CONFIG.CORS_HEADERS`. -/
def CORS_HEADERS : HeaderList :=
  [("Access-Control-Allow-Methods", "GET, POST, PATCH, DELETE, OPTIONS, PURGE, PUT"),
   ("Access-Control-Allow-Headers", "Authorization,Content-Type,apikey,x-client-info,x-supabase-auth,accept-profile,content-profile,prefer,range,x-requested-with,user-agent,x-purge-secret"),
   ("Access-Control-Max-Age", "86400"),
   ("Access-Control-Expose-Headers", "Content-Range,Range-Unit,Content-Length,Content-Profile,Accept-Profile"),
   ("Access-Control-Allow-Credentials", "true")]

/-- `CONFIG.MASTER_DATA_TABLES`. -/
def MASTER_DATA_TABLES : List String :=
  ["numbering_settings", "cash_bank_accounts", "chart_of_accounts", "companies",
   "customers", "financial_periods", "fixed_assets", "products", "profiles",
   "profile_kyc", "profile_references", "suppliers", "tax_group_rates",
   "tax_groups", "tax_rates", "tds_rates", "warehouses"]

/-- `CONFIG.ALLOWED_ORIGINS(env)`: the env var split on commas, with a
hardcoded fallback list. -/
def ALLOWED_ORIGINS (env : Env) : List String :=
  if jsTruthy env.ALLOWED_ORIGINS then
    splitComma (env.ALLOWED_ORIGINS.getD "")
  else
    ["http://localhost:3000", "http://localhost:5173", "https://poysa.de"]

/-! ## Origin policy -/

/-- Hostname extraction of `new URL(origin)` for `scheme://host[:port][/...]`
strings, `none` when the URL constructor would throw.  This models the
platform URL parser on the hierarchical origin strings this worker sees
(scheme, then `://`, then host up to `:`/`/`/`?`/`#`, lowercased). -/
def hostnameGo : Bool → List Char → Option String
  | _, [] => none
  | sawScheme, ':' :: '/' :: '/' :: rest =>
    if sawScheme then
      let hostport := rest.takeWhile (fun c => c != '/' && c != '?' && c != '#')
      let host := hostport.takeWhile (fun c => c != ':')
      if host.isEmpty then none else some (String.mk (host.map Char.toLower))
    else none
  | _, c :: rest => if c = '/' then none else hostnameGo true rest

/-- Hostname of an origin string, if it parses as a URL. -/
def hostnameOfOrigin (s : String) : Option String :=
  hostnameGo false s.toList

/-- `isLocalhostOrigin` from the source: the origin parses as a URL whose
hostname is `localhost`, `127.0.0.1` or `0.0.0.0`. -/
def isLocalhostOrigin (origin : String) : Bool :=
  if origin.isEmpty then false
  else
    match hostnameOfOrigin origin with
    | some h => ["localhost", "127.0.0.1", "0.0.0.0"].contains h
    | none => false

/-- The user-agent marks a mobile runtime: it case-insensitively contains
`flutter` or `dart`. -/
def isMobileUserAgent (userAgent : String) : Bool :=
  strContains (strToLower userAgent) "flutter" || strContains (strToLower userAgent) "dart"

/-- The CORS headers echoing a specific allowed origin with credentials —
`{ ...CONFIG.CORS_HEADERS, "Access-Control-Allow-Origin": origin }`. -/
def echoCorsHeaders (origin : String) : HeaderList :=
  CORS_HEADERS ++ [("Access-Control-Allow-Origin", origin)]

/-- The wildcard CORS headers for no-origin/mobile callers: the base set with
`Access-Control-Allow-Credentials` deleted and a `*` origin. -/
def wildcardCorsHeaders : HeaderList :=
  (CORS_HEADERS.filter (fun kv => kv.1 ≠ "Access-Control-Allow-Credentials")) ++
    [("Access-Control-Allow-Origin", "*")]

/-- `getCorsHeadersForRequest` from the source. `none` is a CORS rejection. -/
def getCorsHeadersForRequest (req : Request) (env : Env) : Option HeaderList :=
  let origin := req.origin
  let userAgent := req.userAgent.getD ""
  let isMobileApp := !(jsTruthy origin) || isMobileUserAgent userAgent
  let allowedOrigins := ALLOWED_ORIGINS env
  if jsTruthy origin &&
      (allowedOrigins.contains (origin.getD "") || isLocalhostOrigin (origin.getD "")) then
    some (echoCorsHeaders (origin.getD ""))
  else if isMobileApp || !(jsTruthy origin) then
    some wildcardCorsHeaders
  else
    none

/-- `handleOptions` from the source: 204 with the CORS headers, the caller's
requested headers echoed when truthy, and a `Vary` marker. -/
def handleOptions (req : Request) (corsHeaders : HeaderList) : Response :=
  let requestHeaders := req.acrh
  let headers :=
    setH
      (if jsTruthy requestHeaders then
        setH corsHeaders "Access-Control-Allow-Headers" (requestHeaders.getD "")
      else corsHeaders)
      "Vary" "Origin, Access-Control-Request-Headers"
  { status := 204, statusText := "", headers := headers, body := Body.null }

/-! ## Cache classification and purge -/

/-- The master-data test used both by the cache branch and by the purge
handler: some configured table name has `/rest/v1/<table>` as a substring
of the pathname. -/
def isMasterDataPath (pathname : String) : Bool :=
  MASTER_DATA_TABLES.any (fun table => strContains pathname ("/rest/v1/" ++ table))

/-- `handlePurgeRequest` from the source. The `cache.delete` key is a fresh
GET request for `urlToPurge.toString()`; `wasPurged` is whether an entry
for that URL existed. -/
def handlePurgeRequest (req : Request) (corsHeaders : HeaderList) (env : Env)
    (cache : Cache) (now : String) : FetchResult :=
  if !(jsTruthy req.xPurgeSecret) || req.xPurgeSecret != env.PURGE_SECRET then
    noEffect
      { status := 403, statusText := "",
        headers := setH corsHeaders "Content-Type" "application/json",
        body := Body.purgeError "Forbidden: Invalid or missing purge secret." }
  else if !(isMasterDataPath req.url.pathname) then
    noEffect
      { status := 403, statusText := "",
        headers := setH corsHeaders "Content-Type" "application/json",
        body := Body.purgeError "Purge denied: Endpoint is not a cacheable master data table." }
  else
    let wasPurged := (cacheFind cache req.url.href).isSome
    { response :=
        { status := 200, statusText := "",
          headers := setH corsHeaders "Content-Type" "application/json",
          body := Body.purgeResult wasPurged req.url.href now },
      upstreamCalled := false, cacheLookups := [],
      cacheDeletes := [("GET", req.url.href)], cachePuts := [] }

/-! ## Proxy route -/

/-- `PROXIABLE_PATHS.some(p => pathname.startsWith(p))`. -/
def isProxiablePath (pathname : String) : Bool :=
  ["/rest/", "/auth/", "/storage/"].any (fun p => strStartsWith pathname p)

/-- `upstreamResponse.ok`: status in 200..299. -/
def upstreamOk (u : UpstreamResponse) : Bool :=
  decide (200 ≤ u.status ∧ u.status ≤ 299)

/-- Forward to the upstream and post-process the response: CORS override,
then for successful GETs either the master-data cache headers plus a
deferred `cache.put`, or the no-store headers. -/
def forwardUpstream (req : Request) (corsHeaders : HeaderList)
    (up : UpstreamResponse) : FetchResult :=
  let h0 := applyCors up.headers corsHeaders
  if req.method = "GET" ∧ upstreamOk up = true then
    if isMasterDataPath req.url.pathname then
      { response :=
          { status := up.status, statusText := up.statusText,
            headers := setH (setH h0 "Cache-Control" "public, max-age=3600")
              "X-Cache-Status" "MISS",
            body := Body.raw up.body },
        upstreamCalled := true, cacheLookups := [], cacheDeletes := [],
        cachePuts := [("GET", req.url.href)] }
    else
      { response :=
          { status := up.status, statusText := up.statusText,
            headers := setH h0 "Cache-Control" "no-cache, no-store, must-revalidate",
            body := Body.raw up.body },
        upstreamCalled := true, cacheLookups := [], cacheDeletes := [], cachePuts := [] }
  else
    { response :=
        { status := up.status, statusText := up.statusText, headers := h0,
          body := Body.raw up.body },
      upstreamCalled := true, cacheLookups := [], cacheDeletes := [], cachePuts := [] }

/-- The proxiable-path branch: GET requests first try the cache (hit ⇒
stored response with `X-Cache-Status: HIT` then CORS override, no upstream
call); otherwise forward upstream. -/
def proxyRoute (req : Request) (corsHeaders : HeaderList) (cache : Cache)
    (up : UpstreamResponse) : FetchResult :=
  if req.method = "GET" then
    match cacheFind cache req.url.href with
    | some entry =>
      { response :=
          { status := entry.status, statusText := entry.statusText,
            headers := applyCors (setH entry.headers "X-Cache-Status" "HIT") corsHeaders,
            body := Body.raw entry.body },
        upstreamCalled := false, cacheLookups := [("GET", req.url.href)],
        cacheDeletes := [], cachePuts := [] }
    | none =>
      let fwd := forwardUpstream req corsHeaders up
      { fwd with cacheLookups := [("GET", req.url.href)] }
  else
    forwardUpstream req corsHeaders up

/-! ## Main worker entry point -/

/-- The 500 configuration-error response (no headers). -/
def configErrorResponse : Response :=
  { status := 500, statusText := "", headers := [],
    body := Body.text "Server configuration error: Required environment variables are missing." }

/-- The 403 CORS-rejection response (no headers). -/
def corsErrorResponse : Response :=
  { status := 403, statusText := "", headers := [],
    body := Body.text "CORS Error: Origin is not permitted." }

/-- The health/root route response: 200 JSON status payload, `Content-Type`
first then the CORS headers spread in. -/
def healthResponse (corsHeaders : HeaderList) (now : String) : Response :=
  { status := 200, statusText := "",
    headers := ("Content-Type", "application/json") :: corsHeaders,
    body := Body.healthJson now }

/-- The fallback 404 response carrying the CORS headers. -/
def notFoundResponse (corsHeaders : HeaderList) : Response :=
  { status := 404, statusText := "", headers := corsHeaders, body := Body.text "Not Found" }

/-- `!env.SUPABASE_URL || !env.SUPABASE_KEY || !env.PURGE_SECRET`, negated:
all three required bindings are truthy. -/
def configOk (env : Env) : Bool :=
  jsTruthy env.SUPABASE_URL && jsTruthy env.SUPABASE_KEY && jsTruthy env.PURGE_SECRET

/-- The route dispatch performed after the configuration check and the CORS
gate: OPTIONS preflight, then the `/health` and `/` routes, then PURGE, then
the proxiable prefixes, then 404. -/
def fetchRouted (req : Request) (env : Env) (corsHeaders : HeaderList)
    (cache : Cache) (up : UpstreamResponse) (now : String) : FetchResult :=
  if req.method = "OPTIONS" then
    noEffect (handleOptions req corsHeaders)
  else if req.url.pathname = "/health" ∨ req.url.pathname = "/" then
    noEffect (healthResponse corsHeaders now)
  else if req.method = "PURGE" then
    handlePurgeRequest req corsHeaders env cache now
  else if isProxiablePath req.url.pathname then
    proxyRoute req corsHeaders cache up
  else
    noEffect (notFoundResponse corsHeaders)

/-- The worker's `fetch` entry point: configuration check, CORS gate, then
route dispatch. -/
def fetch (req : Request) (env : Env) (cache : Cache) (up : UpstreamResponse)
    (now : String) : FetchResult :=
  if !(configOk env) then
    noEffect configErrorResponse
  else
    match getCorsHeadersForRequest req env with
    | none => noEffect corsErrorResponse
    | some corsHeaders => fetchRouted req env corsHeaders cache up now

/-! ## Header lemmas -/

theorem lowEq_refl (k : String) : lowEq k k = true := by
  simp [lowEq]

theorem lowEq_eqv {a b : String} (h : lowEq a b = true) : strToLower a = strToLower b := by
  simpa [lowEq] using h

theorem lowEq_of_eq_of_ne {a b c : String} (hab : lowEq a b = true) (hbc : lowEq b c = false) :
    lowEq a c = false := by
  have h1 := lowEq_eqv hab
  simp only [lowEq, beq_eq_false_iff_ne, ne_eq] at hbc ⊢
  exact h1 ▸ hbc

theorem getH_setH_self (hs : HeaderList) (k v : String) : getH (setH hs k v) k = some v := by
  induction hs with
  | nil => simp [setH, getH, lowEq_refl]
  | cons kv rest ih =>
    by_cases h : lowEq kv.1 k = true
    · simp [setH, h, getH]
    · simp only [Bool.not_eq_true] at h
      simp [setH, h, getH, ih]

theorem getH_removeH_ne (hs : HeaderList) {k' k : String} (h : lowEq k' k = false) :
    getH (removeH hs k') k = getH hs k := by
  induction hs with
  | nil => rfl
  | cons kv rest ih =>
    by_cases hk : lowEq kv.1 k' = true
    · have hne : lowEq kv.1 k = false := lowEq_of_eq_of_ne hk h
      simp [removeH, hk, getH, hne, ih]
    · simp only [Bool.not_eq_true] at hk
      by_cases hk2 : lowEq kv.1 k = true
      · simp [removeH, hk, getH, hk2]
      · simp only [Bool.not_eq_true] at hk2
        simp [removeH, hk, getH, hk2, ih]

theorem getH_setH_ne (hs : HeaderList) {k' k : String} (v : String) (h : lowEq k' k = false) :
    getH (setH hs k' v) k = getH hs k := by
  induction hs with
  | nil => simp [setH, getH, h]
  | cons kv rest ih =>
    by_cases hk : lowEq kv.1 k' = true
    · have hne : lowEq kv.1 k = false := lowEq_of_eq_of_ne hk h
      simp [setH, hk, getH, hne, getH_removeH_ne rest h]
    · simp only [Bool.not_eq_true] at hk
      simp only [setH, hk, if_false, getH]
      by_cases hk2 : lowEq kv.1 k = true
      · simp [hk2]
      · simp only [Bool.not_eq_true] at hk2
        simp [hk2, ih]

theorem getH_applyCors_ne (base cors : HeaderList) (k : String)
    (h : ∀ kv ∈ cors, lowEq kv.1 k = false) :
    getH (applyCors base cors) k = getH base k := by
  induction cors generalizing base with
  | nil => rfl
  | cons kv rest ih =>
    have h1 : lowEq kv.1 k = false := h kv (List.mem_cons_self kv rest)
    have h2 : ∀ kv' ∈ rest, lowEq kv'.1 k = false :=
      fun kv' hm => h kv' (List.mem_cons_of_mem kv hm)
    show getH (applyCors (setH base kv.1 kv.2) rest) k = getH base k
    rw [ih (setH base kv.1 kv.2) h2, getH_setH_ne base kv.2 h1]

/-- Every header name a CORS decision can produce. -/
def corsHeaderNames : List String :=
  ["Access-Control-Allow-Methods", "Access-Control-Allow-Headers", "Access-Control-Max-Age",
   "Access-Control-Expose-Headers", "Access-Control-Allow-Credentials",
   "Access-Control-Allow-Origin"]

theorem cors_header_names {req : Request} {env : Env} {cors : HeaderList}
    (h : getCorsHeadersForRequest req env = some cors) :
    ∀ kv ∈ cors, kv.1 ∈ corsHeaderNames := by
  intro kv hkv
  simp only [getCorsHeadersForRequest] at h
  split_ifs at h
  · obtain rfl : echoCorsHeaders (req.origin.getD "") = cors := Option.some.inj h
    simp only [echoCorsHeaders, CORS_HEADERS, List.mem_append, List.mem_cons,
      List.not_mem_nil, or_false] at hkv
    rcases hkv with ((h1 | h1 | h1 | h1 | h1) | h1) <;> subst h1 <;>
      simp [corsHeaderNames]
  · obtain rfl : wildcardCorsHeaders = cors := Option.some.inj h
    have hw : wildcardCorsHeaders =
        [("Access-Control-Allow-Methods", "GET, POST, PATCH, DELETE, OPTIONS, PURGE, PUT"),
         ("Access-Control-Allow-Headers", "Authorization,Content-Type,apikey,x-client-info,x-supabase-auth,accept-profile,content-profile,prefer,range,x-requested-with,user-agent,x-purge-secret"),
         ("Access-Control-Max-Age", "86400"),
         ("Access-Control-Expose-Headers", "Content-Range,Range-Unit,Content-Length,Content-Profile,Accept-Profile"),
         ("Access-Control-Allow-Origin", "*")] := by decide
    rw [hw] at hkv
    simp only [List.mem_cons, List.not_mem_nil, or_false] at hkv
    rcases hkv with h1 | h1 | h1 | h1 | h1 <;> subst h1 <;> decide

theorem cors_no_cache_status {req : Request} {env : Env} {cors : HeaderList}
    (h : getCorsHeadersForRequest req env = some cors) :
    ∀ kv ∈ cors, lowEq kv.1 "X-Cache-Status" = false := by
  intro kv hkv
  have hmem := cors_header_names h kv hkv
  simp only [corsHeaderNames, List.mem_cons, List.not_mem_nil, or_false] at hmem
  rcases hmem with h1 | h1 | h1 | h1 | h1 | h1 <;> rw [h1] <;> decide

/-! ## Route lemmas -/

theorem proxiable_not_informational {p : String} (h : isProxiablePath p = true) :
    p ≠ "/health" ∧ p ≠ "/" := by
  constructor <;> intro he <;> rw [he] at h <;> exact absurd h (by decide)

theorem fetch_config_missing (req : Request) (env : Env) (cache : Cache)
    (up : UpstreamResponse) (now : String) (h : configOk env = false) :
    fetch req env cache up now = noEffect configErrorResponse := by
  simp [fetch, h]

theorem fetch_cors_reject (req : Request) (env : Env) (cache : Cache)
    (up : UpstreamResponse) (now : String) (hcfg : configOk env = true)
    (hcors : getCorsHeadersForRequest req env = none) :
    fetch req env cache up now = noEffect corsErrorResponse := by
  simp [fetch, hcfg, hcors]

theorem fetch_eq_routed (req : Request) (env : Env) (cache : Cache)
    (up : UpstreamResponse) (now : String) {cors : HeaderList}
    (hcfg : configOk env = true) (hcors : getCorsHeadersForRequest req env = some cors) :
    fetch req env cache up now = fetchRouted req env cors cache up now := by
  simp [fetch, hcfg, hcors]

theorem routed_options (req : Request) (env : Env) (cors : HeaderList) (cache : Cache)
    (up : UpstreamResponse) (now : String) (hm : req.method = "OPTIONS") :
    fetchRouted req env cors cache up now = noEffect (handleOptions req cors) := by
  simp [fetchRouted, hm]

theorem routed_health (req : Request) (env : Env) (cors : HeaderList) (cache : Cache)
    (up : UpstreamResponse) (now : String) (hm : req.method ≠ "OPTIONS")
    (hp : req.url.pathname = "/health" ∨ req.url.pathname = "/") :
    fetchRouted req env cors cache up now = noEffect (healthResponse cors now) := by
  simp [fetchRouted, hm, hp]

theorem routed_purge (req : Request) (env : Env) (cors : HeaderList) (cache : Cache)
    (up : UpstreamResponse) (now : String) (hm : req.method = "PURGE")
    (hp1 : req.url.pathname ≠ "/health") (hp2 : req.url.pathname ≠ "/") :
    fetchRouted req env cors cache up now = handlePurgeRequest req cors env cache now := by
  simp [fetchRouted, hm, hp1, hp2]

theorem routed_proxy (req : Request) (env : Env) (cors : HeaderList) (cache : Cache)
    (up : UpstreamResponse) (now : String) (hm1 : req.method ≠ "OPTIONS")
    (hm2 : req.method ≠ "PURGE") (hprox : isProxiablePath req.url.pathname = true) :
    fetchRouted req env cors cache up now = proxyRoute req cors cache up := by
  obtain ⟨hp1, hp2⟩ := proxiable_not_informational hprox
  simp [fetchRouted, hm1, hm2, hp1, hp2, hprox]

theorem routed_fallback (req : Request) (env : Env) (cors : HeaderList) (cache : Cache)
    (up : UpstreamResponse) (now : String) (hm1 : req.method ≠ "OPTIONS")
    (hm2 : req.method ≠ "PURGE") (hp1 : req.url.pathname ≠ "/health")
    (hp2 : req.url.pathname ≠ "/") (hprox : isProxiablePath req.url.pathname = false) :
    fetchRouted req env cors cache up now = noEffect (notFoundResponse cors) := by
  simp [fetchRouted, hm1, hm2, hp1, hp2, hprox]

/-! ## Sample inputs used by witnesses and counterexamples -/

/-- A proxiable master-data URL. -/
def sampleUrl : Url :=
  ⟨"/rest/v1/companies", "", "https://proxy.example/rest/v1/companies"⟩

/-- A fully configured environment. -/
def sampleOkEnv : Env :=
  ⟨some "https://db.example.com", some "anon-key", some "s3cret", none, none⟩

/-- An environment missing the upstream base URL. -/
def sampleBadEnv : Env :=
  ⟨none, some "anon-key", some "s3cret", none, none⟩

/-- A successful upstream response. -/
def sampleUp200 : UpstreamResponse :=
  ⟨200, "OK", [("Content-Type", "application/json")], "[]"⟩

/-! ## Claims -/

/-- C5: for every request, if the upstream base URL, the upstream credential,
or the purge secret is unset (falsy) in the configuration, the gateway
returns the 500 configuration error before any other processing: no upstream
call and no cache lookup, delete or store. -/
theorem missing_config_short_circuits (req : Request) (env : Env) (cache : Cache)
    (up : UpstreamResponse) (now : String) (h : configOk env = false) :
    fetch req env cache up now = noEffect configErrorResponse ∧
    configErrorResponse.status = 500 ∧
    (fetch req env cache up now).upstreamCalled = false ∧
    (fetch req env cache up now).cacheLookups = [] ∧
    (fetch req env cache up now).cacheDeletes = [] ∧
    (fetch req env cache up now).cachePuts = [] := by
  have he := fetch_config_missing req env cache up now h
  exact ⟨he, rfl, by rw [he]; rfl, by rw [he]; rfl, by rw [he]; rfl, by rw [he]; rfl⟩

/-- Witness for C5 at a concrete request and an environment missing the
upstream URL. -/
theorem missing_config_short_circuits_witness :
    fetch ⟨"GET", sampleUrl, none, none, none, none⟩ sampleBadEnv [] sampleUp200 "T" =
      noEffect configErrorResponse ∧
    configErrorResponse.status = 500 ∧
    (fetch ⟨"GET", sampleUrl, none, none, none, none⟩ sampleBadEnv [] sampleUp200 "T").upstreamCalled = false ∧
    (fetch ⟨"GET", sampleUrl, none, none, none, none⟩ sampleBadEnv [] sampleUp200 "T").cacheLookups = [] ∧
    (fetch ⟨"GET", sampleUrl, none, none, none, none⟩ sampleBadEnv [] sampleUp200 "T").cacheDeletes = [] ∧
    (fetch ⟨"GET", sampleUrl, none, none, none, none⟩ sampleBadEnv [] sampleUp200 "T").cachePuts = [] :=
  missing_config_short_circuits ⟨"GET", sampleUrl, none, none, none, none⟩ sampleBadEnv
    [] sampleUp200 "T" (by decide)

/-- C6: the origin-policy evaluation (a) echoes the exact origin with the
credentials header when the Origin header is truthy and allowlisted or has a
loopback hostname, (b) yields the wildcard decision with the credentials
header absent when the Origin header is absent (falsy) or the user-agent
case-insensitively contains a mobile-runtime marker, and (c) rejects
otherwise. -/
theorem origin_policy_cases (req : Request) (env : Env) :
    (jsTruthy req.origin = true →
      ((ALLOWED_ORIGINS env).contains (req.origin.getD "") ||
          isLocalhostOrigin (req.origin.getD "")) = true →
      getCorsHeadersForRequest req env = some (echoCorsHeaders (req.origin.getD "")) ∧
        getH (echoCorsHeaders (req.origin.getD "")) "Access-Control-Allow-Origin" =
          some (req.origin.getD "") ∧
        getH (echoCorsHeaders (req.origin.getD "")) "Access-Control-Allow-Credentials" =
          some "true") ∧
    ((jsTruthy req.origin &&
        ((ALLOWED_ORIGINS env).contains (req.origin.getD "") ||
          isLocalhostOrigin (req.origin.getD ""))) = false →
      (jsTruthy req.origin = false ∨ isMobileUserAgent (req.userAgent.getD "") = true) →
      getCorsHeadersForRequest req env = some wildcardCorsHeaders ∧
        getH wildcardCorsHeaders "Access-Control-Allow-Origin" = some "*" ∧
        getH wildcardCorsHeaders "Access-Control-Allow-Credentials" = none) ∧
    (jsTruthy req.origin = true →
      ((ALLOWED_ORIGINS env).contains (req.origin.getD "") ||
          isLocalhostOrigin (req.origin.getD "")) = false →
      isMobileUserAgent (req.userAgent.getD "") = false →
      getCorsHeadersForRequest req env = none) := by
  refine ⟨fun h1 h2 => ?_, fun h1 h2 => ?_, fun h1 h2 h3 => ?_⟩
  · have hcond : (jsTruthy req.origin &&
        ((ALLOWED_ORIGINS env).contains (req.origin.getD "") ||
          isLocalhostOrigin (req.origin.getD ""))) = true := by rw [h1, h2]; rfl
    refine ⟨?_, rfl, rfl⟩
    simp only [getCorsHeadersForRequest]
    rw [if_pos hcond]
  · have hcond2 : ((!jsTruthy req.origin || isMobileUserAgent (req.userAgent.getD "")) ||
        !jsTruthy req.origin) = true := by
      rcases h2 with h2 | h2 <;> rw [h2] <;> simp
    refine ⟨?_, by decide, by decide⟩
    simp only [getCorsHeadersForRequest]
    rw [if_neg (by rw [h1]; exact Bool.false_ne_true), if_pos hcond2]
  · have hcond1 : (jsTruthy req.origin &&
        ((ALLOWED_ORIGINS env).contains (req.origin.getD "") ||
          isLocalhostOrigin (req.origin.getD ""))) = false := by rw [h1, h2]; rfl
    have hcond2 : ((!jsTruthy req.origin || isMobileUserAgent (req.userAgent.getD "")) ||
        !jsTruthy req.origin) = false := by rw [h1, h3]; rfl
    simp only [getCorsHeadersForRequest]
    rw [if_neg (by rw [hcond1]; exact Bool.false_ne_true),
      if_neg (by rw [hcond2]; exact Bool.false_ne_true)]

/-- Witness for C6: an allowlisted origin is echoed, a no-origin Dart
user-agent gets the wildcard decision, and an unknown web origin is
rejected. -/
theorem origin_policy_cases_witness :
    getCorsHeadersForRequest ⟨"GET", sampleUrl, some "https://poysa.de", none, none, none⟩
        sampleOkEnv = some (echoCorsHeaders "https://poysa.de") ∧
    getCorsHeadersForRequest ⟨"GET", sampleUrl, none, some "Dart/3.0 (dart:io)", none, none⟩
        sampleOkEnv = some wildcardCorsHeaders ∧
    getCorsHeadersForRequest ⟨"GET", sampleUrl, some "https://evil.example", none, none, none⟩
        sampleOkEnv = none := by
  refine ⟨?_, ?_, ?_⟩
  · exact ((origin_policy_cases ⟨"GET", sampleUrl, some "https://poysa.de", none, none, none⟩
      sampleOkEnv).1 (by decide) (by decide)).1
  · exact ((origin_policy_cases ⟨"GET", sampleUrl, none, some "Dart/3.0 (dart:io)", none, none⟩
      sampleOkEnv).2.1 (by decide) (Or.inl (by decide))).1
  · exact (origin_policy_cases ⟨"GET", sampleUrl, some "https://evil.example", none, none, none⟩
      sampleOkEnv).2.2 (by decide) (by decide) (by decide)

/-- C10: master-data classification (used both for cache eligibility and for
purge eligibility) is decided by substring containment: any path containing
`/rest/v1/<table>` for a configured table anywhere — including resource names
that merely extend a table name and markers in a non-leading position — is
classified as master data. -/
theorem master_data_substring_containment (p t : String)
    (ht : t ∈ MASTER_DATA_TABLES) (hsub : strContains p ("/rest/v1/" ++ t) = true) :
    isMasterDataPath p = true := by
  unfold isMasterDataPath
  exact List.any_eq_true.mpr ⟨t, ht, hsub⟩

/-- Witness for C10: a path extending the `companies` table name and a path
with the marker in a non-leading position are both classified master data. -/
theorem master_data_substring_containment_witness :
    isMasterDataPath "/rest/v1/companies_archive" = true ∧
    isMasterDataPath "/api/rest/v1/products" = true :=
  ⟨master_data_substring_containment "/rest/v1/companies_archive" "companies"
      (by decide) (by decide),
   master_data_substring_containment "/api/rest/v1/products" "products"
      (by decide) (by decide)⟩

/-- C3: a GET to a proxiable path whose cache key is present is served from
the cache: stored body, status and statusText, response headers equal to the
stored headers with `X-Cache-Status` set to `HIT` and the CORS headers then
applied on top, and no upstream call and no cache write. -/
theorem get_cache_hit_served_without_upstream
    (req : Request) (env : Env) (cache : Cache) (up : UpstreamResponse) (now : String)
    (corsHeaders : HeaderList) (entry : CachedEntry)
    (hcfg : configOk env = true)
    (hcors : getCorsHeadersForRequest req env = some corsHeaders)
    (hm : req.method = "GET")
    (hprox : isProxiablePath req.url.pathname = true)
    (hhit : cacheFind cache req.url.href = some entry) :
    fetch req env cache up now =
      { response :=
          { status := entry.status, statusText := entry.statusText,
            headers := applyCors (setH entry.headers "X-Cache-Status" "HIT") corsHeaders,
            body := Body.raw entry.body },
        upstreamCalled := false, cacheLookups := [("GET", req.url.href)],
        cacheDeletes := [], cachePuts := [] } ∧
    getH (fetch req env cache up now).response.headers "X-Cache-Status" = some "HIT" := by
  have hm1 : req.method ≠ "OPTIONS" := by rw [hm]; decide
  have hm2 : req.method ≠ "PURGE" := by rw [hm]; decide
  have heq : fetch req env cache up now =
      { response :=
          { status := entry.status, statusText := entry.statusText,
            headers := applyCors (setH entry.headers "X-Cache-Status" "HIT") corsHeaders,
            body := Body.raw entry.body },
        upstreamCalled := false, cacheLookups := [("GET", req.url.href)],
        cacheDeletes := [], cachePuts := [] } := by
    rw [fetch_eq_routed req env cache up now hcfg hcors,
      routed_proxy req env corsHeaders cache up now hm1 hm2 hprox]
    simp [proxyRoute, hm, hhit]
  refine ⟨heq, ?_⟩
  rw [heq, getH_applyCors_ne _ _ _ (cors_no_cache_status hcors), getH_setH_self]

/-- Witness for C3 at a concrete cached GET. -/
theorem get_cache_hit_served_without_upstream_witness :
    fetch ⟨"GET", sampleUrl, none, none, none, none⟩ sampleOkEnv
        [(sampleUrl.href, ⟨200, "OK", [("ETag", "abc")], "cached-body"⟩)] sampleUp200 "T" =
      { response :=
          { status := 200, statusText := "OK",
            headers := applyCors (setH [("ETag", "abc")] "X-Cache-Status" "HIT")
              wildcardCorsHeaders,
            body := Body.raw "cached-body" },
        upstreamCalled := false, cacheLookups := [("GET", sampleUrl.href)],
        cacheDeletes := [], cachePuts := [] } ∧
    getH (fetch ⟨"GET", sampleUrl, none, none, none, none⟩ sampleOkEnv
        [(sampleUrl.href, ⟨200, "OK", [("ETag", "abc")], "cached-body"⟩)] sampleUp200
        "T").response.headers "X-Cache-Status" = some "HIT" :=
  get_cache_hit_served_without_upstream ⟨"GET", sampleUrl, none, none, none, none⟩
    sampleOkEnv [(sampleUrl.href, ⟨200, "OK", [("ETag", "abc")], "cached-body"⟩)]
    sampleUp200 "T" wildcardCorsHeaders ⟨200, "OK", [("ETag", "abc")], "cached-body"⟩
    (by decide) (by decide) rfl (by decide) (by decide)

/-- C7 counterexample: the spec's informational path `/info` has no route in
the code — a well-configured, origin-accepted GET to `/info` falls through to
the 404 fallback rather than returning the 200 status payload. -/
theorem info_path_returns_not_found :
    fetch ⟨"GET", ⟨"/info", "", "https://proxy.example/info"⟩, none, none, none, none⟩
        sampleOkEnv [] sampleUp200 "T" =
      noEffect (notFoundResponse wildcardCorsHeaders) ∧
    (notFoundResponse wildcardCorsHeaders).status = 404 ∧
    (notFoundResponse wildcardCorsHeaders).body = Body.text "Not Found" := by
  exact ⟨by decide, rfl, rfl⟩

/-- C7 (amended): every non-OPTIONS request to the informational paths `/`
and `/health` (with configuration present and origin accepted) returns the
200 synthesized JSON status payload merged with the CORS headers and makes
no upstream call; `/info` is not an informational path of the code. -/
theorem informational_routes_health_payload
    (req : Request) (env : Env) (cache : Cache) (up : UpstreamResponse) (now : String)
    (corsHeaders : HeaderList)
    (hcfg : configOk env = true)
    (hcors : getCorsHeadersForRequest req env = some corsHeaders)
    (hm : req.method ≠ "OPTIONS")
    (hp : req.url.pathname = "/health" ∨ req.url.pathname = "/") :
    fetch req env cache up now = noEffect (healthResponse corsHeaders now) ∧
    (healthResponse corsHeaders now).status = 200 ∧
    (healthResponse corsHeaders now).body = Body.healthJson now ∧
    (healthResponse corsHeaders now).headers =
      ("Content-Type", "application/json") :: corsHeaders ∧
    (fetch req env cache up now).upstreamCalled = false := by
  have heq := (fetch_eq_routed req env cache up now hcfg hcors).trans
    (routed_health req env corsHeaders cache up now hm hp)
  exact ⟨heq, rfl, rfl, rfl, by rw [heq]; rfl⟩

/-- Witness for the amended C7 at a concrete GET `/health`. -/
theorem informational_routes_health_payload_witness :
    fetch ⟨"GET", ⟨"/health", "", "https://proxy.example/health"⟩, none, none, none, none⟩
        sampleOkEnv [] sampleUp200 "T" =
      noEffect (healthResponse wildcardCorsHeaders "T") ∧
    (healthResponse wildcardCorsHeaders "T").status = 200 ∧
    (healthResponse wildcardCorsHeaders "T").body = Body.healthJson "T" ∧
    (healthResponse wildcardCorsHeaders "T").headers =
      ("Content-Type", "application/json") :: wildcardCorsHeaders ∧
    (fetch ⟨"GET", ⟨"/health", "", "https://proxy.example/health"⟩, none, none, none, none⟩
        sampleOkEnv [] sampleUp200 "T").upstreamCalled = false :=
  informational_routes_health_payload
    ⟨"GET", ⟨"/health", "", "https://proxy.example/health"⟩, none, none, none, none⟩
    sampleOkEnv [] sampleUp200 "T" wildcardCorsHeaders (by decide) (by decide) (by decide)
    (Or.inl rfl)

/-- C8: an OPTIONS request (with configuration present and origin accepted)
returns status 204 with an empty body and no upstream call; when the caller
supplied a (truthy) `Access-Control-Request-Headers` value the response's
`Access-Control-Allow-Headers` equals that value verbatim, and the response
carries a `Vary` header naming Origin and Access-Control-Request-Headers. -/
theorem preflight_options_response
    (req : Request) (env : Env) (cache : Cache) (up : UpstreamResponse) (now : String)
    (corsHeaders : HeaderList)
    (hcfg : configOk env = true)
    (hcors : getCorsHeadersForRequest req env = some corsHeaders)
    (hm : req.method = "OPTIONS") :
    fetch req env cache up now = noEffect (handleOptions req corsHeaders) ∧
    (handleOptions req corsHeaders).status = 204 ∧
    (handleOptions req corsHeaders).body = Body.null ∧
    (fetch req env cache up now).upstreamCalled = false ∧
    (∀ s : String, req.acrh = some s → s ≠ "" →
      getH (handleOptions req corsHeaders).headers "Access-Control-Allow-Headers" = some s) ∧
    getH (handleOptions req corsHeaders).headers "Vary" =
      some "Origin, Access-Control-Request-Headers" := by
  have heq := (fetch_eq_routed req env cache up now hcfg hcors).trans
    (routed_options req env corsHeaders cache up now hm)
  refine ⟨heq, rfl, rfl, by rw [heq]; rfl, ?_, ?_⟩
  · intro s hs hne
    have ht : jsTruthy req.acrh = true := by
      rw [hs]; simp [jsTruthy, hne]
    simp only [handleOptions, ht, if_true]
    rw [getH_setH_ne _ _ (show lowEq "Vary" "Access-Control-Allow-Headers" = false by decide),
      getH_setH_self, hs]
    rfl
  · simp only [handleOptions]
    exact getH_setH_self _ _ _

/-- Witness for C8 at a concrete OPTIONS preflight that requests custom
headers. -/
theorem preflight_options_response_witness :
    fetch ⟨"OPTIONS", sampleUrl, none, none, some "X-Custom, Content-Type", none⟩
        sampleOkEnv [] sampleUp200 "T" =
      noEffect (handleOptions
        ⟨"OPTIONS", sampleUrl, none, none, some "X-Custom, Content-Type", none⟩
        wildcardCorsHeaders) ∧
    (handleOptions ⟨"OPTIONS", sampleUrl, none, none, some "X-Custom, Content-Type", none⟩
        wildcardCorsHeaders).status = 204 ∧
    (handleOptions ⟨"OPTIONS", sampleUrl, none, none, some "X-Custom, Content-Type", none⟩
        wildcardCorsHeaders).body = Body.null ∧
    (fetch ⟨"OPTIONS", sampleUrl, none, none, some "X-Custom, Content-Type", none⟩
        sampleOkEnv [] sampleUp200 "T").upstreamCalled = false ∧
    (∀ s : String,
      (⟨"OPTIONS", sampleUrl, none, none, some "X-Custom, Content-Type", none⟩ :
        Request).acrh = some s → s ≠ "" →
      getH (handleOptions
        ⟨"OPTIONS", sampleUrl, none, none, some "X-Custom, Content-Type", none⟩
        wildcardCorsHeaders).headers "Access-Control-Allow-Headers" = some s) ∧
    getH (handleOptions ⟨"OPTIONS", sampleUrl, none, none, some "X-Custom, Content-Type", none⟩
        wildcardCorsHeaders).headers "Vary" =
      some "Origin, Access-Control-Request-Headers" :=
  preflight_options_response
    ⟨"OPTIONS", sampleUrl, none, none, some "X-Custom, Content-Type", none⟩
    sampleOkEnv [] sampleUp200 "T" wildcardCorsHeaders (by decide) (by decide) rfl

/-- C1 counterexample: a PURGE to the informational path `/health` with the
secret missing entirely is intercepted by the health route (which ignores the
method) and answered 200 with the health payload — not 403 — so a missing
secret does not yield 403 "regardless of the path". -/
theorem purge_health_path_returns_ok :
    fetch ⟨"PURGE", ⟨"/health", "", "https://proxy.example/health"⟩, none, none, none, none⟩
        sampleOkEnv [] sampleUp200 "T" =
      noEffect (healthResponse wildcardCorsHeaders "T") ∧
    (healthResponse wildcardCorsHeaders "T").status = 200 ∧
    (healthResponse wildcardCorsHeaders "T").body = Body.healthJson "T" :=
  ⟨by decide, rfl, rfl⟩

/-- C1 (amended): for every PURGE request that reaches the purge route —
configuration present, origin accepted, and a path other than the
informational `/` and `/health` — the gateway returns 200 with the
`{purged, url, timestamp}` JSON body iff the caller-supplied secret is truthy
and equals the configured purge secret and the path references a MasterData
member; a missing/incorrect secret yields 403 with the structured
`{purged:false, error}` body regardless of the path, and a correct secret on
a non-MasterData path yields 403 likewise. -/
theorem purge_route_contract
    (req : Request) (env : Env) (cache : Cache) (up : UpstreamResponse) (now : String)
    (corsHeaders : HeaderList)
    (hcfg : configOk env = true)
    (hcors : getCorsHeadersForRequest req env = some corsHeaders)
    (hm : req.method = "PURGE")
    (hp1 : req.url.pathname ≠ "/health") (hp2 : req.url.pathname ≠ "/") :
    ((!(jsTruthy req.xPurgeSecret) || req.xPurgeSecret != env.PURGE_SECRET) = true →
      (fetch req env cache up now).response.status = 403 ∧
      (fetch req env cache up now).response.body =
        Body.purgeError "Forbidden: Invalid or missing purge secret." ∧
      (fetch req env cache up now).cacheDeletes = []) ∧
    (jsTruthy req.xPurgeSecret = true → req.xPurgeSecret = env.PURGE_SECRET →
      isMasterDataPath req.url.pathname = false →
      (fetch req env cache up now).response.status = 403 ∧
      (fetch req env cache up now).response.body =
        Body.purgeError "Purge denied: Endpoint is not a cacheable master data table." ∧
      (fetch req env cache up now).cacheDeletes = []) ∧
    (jsTruthy req.xPurgeSecret = true → req.xPurgeSecret = env.PURGE_SECRET →
      isMasterDataPath req.url.pathname = true →
      (fetch req env cache up now).response =
        { status := 200, statusText := "",
          headers := setH corsHeaders "Content-Type" "application/json",
          body := Body.purgeResult (cacheFind cache req.url.href).isSome req.url.href now } ∧
      (fetch req env cache up now).cacheDeletes = [("GET", req.url.href)]) ∧
    ((fetch req env cache up now).response.status = 200 ↔
      (jsTruthy req.xPurgeSecret = true ∧ req.xPurgeSecret = env.PURGE_SECRET ∧
        isMasterDataPath req.url.pathname = true)) := by
  have heq := (fetch_eq_routed req env cache up now hcfg hcors).trans
    (routed_purge req env corsHeaders cache up now hm hp1 hp2)
  by_cases hbad : (!(jsTruthy req.xPurgeSecret) || req.xPurgeSecret != env.PURGE_SECRET) = true
  · have hfe : fetch req env cache up now =
        noEffect
          { status := 403, statusText := "",
            headers := setH corsHeaders "Content-Type" "application/json",
            body := Body.purgeError "Forbidden: Invalid or missing purge secret." } := by
      rw [heq]; simp [handlePurgeRequest, hbad]
    refine ⟨fun _ => ⟨by rw [hfe]; rfl, by rw [hfe]; rfl, by rw [hfe]; rfl⟩,
      fun h1 h2 _ => absurd hbad (by rw [h1, h2]; simp),
      fun h1 h2 _ => absurd hbad (by rw [h1, h2]; simp), ?_⟩
    rw [hfe]
    constructor
    · intro h; exact absurd (show (403 : Nat) = 200 from h) (by decide)
    · rintro ⟨h1, h2, _⟩; exact absurd hbad (by rw [h1, h2]; simp)
  · have hbad' : (!(jsTruthy req.xPurgeSecret) || req.xPurgeSecret != env.PURGE_SECRET) = false := by
      simpa using hbad
    have h1 : jsTruthy req.xPurgeSecret = true := by
      rcases Bool.or_eq_false_iff.mp hbad' with ⟨ha, _⟩
      simpa using ha
    have h2 : req.xPurgeSecret = env.PURGE_SECRET := by
      rcases Bool.or_eq_false_iff.mp hbad' with ⟨_, hb⟩
      simpa using hb
    by_cases hmd : isMasterDataPath req.url.pathname = true
    · have hfe : fetch req env cache up now =
          { response :=
              { status := 200, statusText := "",
                headers := setH corsHeaders "Content-Type" "application/json",
                body := Body.purgeResult (cacheFind cache req.url.href).isSome
                  req.url.href now },
            upstreamCalled := false, cacheLookups := [],
            cacheDeletes := [("GET", req.url.href)], cachePuts := [] } := by
        rw [heq]; simp [handlePurgeRequest, hbad', hmd]
      refine ⟨fun hb => ?_, fun _ _ hmd' => ?_, fun _ _ _ => ⟨by rw [hfe], by rw [hfe]⟩, ?_⟩
      · rw [hbad'] at hb; exact absurd hb (by decide)
      · rw [hmd] at hmd'; exact absurd hmd' (by decide)
      · rw [hfe]
        exact ⟨fun _ => ⟨h1, h2, hmd⟩, fun _ => rfl⟩
    · have hmd' : isMasterDataPath req.url.pathname = false := by simpa using hmd
      have hfe : fetch req env cache up now =
          noEffect
            { status := 403, statusText := "",
              headers := setH corsHeaders "Content-Type" "application/json",
              body := Body.purgeError
                "Purge denied: Endpoint is not a cacheable master data table." } := by
        rw [heq]; simp [handlePurgeRequest, hbad', hmd']
      refine ⟨fun hb => ?_, fun _ _ _ => ⟨by rw [hfe]; rfl, by rw [hfe]; rfl, by rw [hfe]; rfl⟩,
        fun _ _ hmd2 => ?_, ?_⟩
      · rw [hbad'] at hb; exact absurd hb (by decide)
      · rw [hmd'] at hmd2; exact absurd hmd2 (by decide)
      · rw [hfe]
        constructor
        · intro h; exact absurd (show (403 : Nat) = 200 from h) (by decide)
        · rintro ⟨_, _, h3⟩; rw [hmd'] at h3; exact absurd h3 (by decide)

/-- Witness for the amended C1: a wrong secret on a master-data path is
rejected with 403; the correct secret on the same path purges with 200. -/
theorem purge_route_contract_witness :
    (fetch ⟨"PURGE", sampleUrl, none, none, none, some "wrong"⟩ sampleOkEnv []
        sampleUp200 "T").response.status = 403 ∧
    (fetch ⟨"PURGE", sampleUrl, none, none, none, some "s3cret"⟩ sampleOkEnv []
        sampleUp200 "T").response.status = 200 := by
  constructor
  · exact ((purge_route_contract ⟨"PURGE", sampleUrl, none, none, none, some "wrong"⟩
      sampleOkEnv [] sampleUp200 "T" wildcardCorsHeaders (by decide) (by decide) rfl
      (by decide) (by decide)).1 (by decide)).1
  · exact (purge_route_contract ⟨"PURGE", sampleUrl, none, none, none, some "s3cret"⟩
      sampleOkEnv [] sampleUp200 "T" wildcardCorsHeaders (by decide) (by decide) rfl
      (by decide) (by decide)).2.2.2.mpr ⟨by decide, rfl, by decide⟩

/-- C2 counterexample: a GET to a master-data proxiable path whose upstream
answers 500 receives no `Cache-Control` override at all (the upstream headers
pass through) — contradicting the claim that every non-cached GET response on
such a path gets `no-cache, no-store, must-revalidate`; no cache entry is
created either. -/
theorem unsuccessful_get_has_no_cache_control :
    getH (fetch ⟨"GET", sampleUrl, none, none, none, none⟩ sampleOkEnv []
        ⟨500, "", [], "err"⟩ "T").response.headers "Cache-Control" = none ∧
    (fetch ⟨"GET", sampleUrl, none, none, none, none⟩ sampleOkEnv []
        ⟨500, "", [], "err"⟩ "T").response.status = 500 ∧
    (fetch ⟨"GET", sampleUrl, none, none, none, none⟩ sampleOkEnv []
        ⟨500, "", [], "err"⟩ "T").cachePuts = [] :=
  ⟨by decide, by decide, by decide⟩

/-- C2 (amended): for a GET on a proxiable path that misses the cache
(configuration present, origin accepted), the upstream is called; the
response gets `Cache-Control: public, max-age=3600`, the `X-Cache-Status:
MISS` marker and a deferred (non-blocking) cache store iff the upstream
status indicates success and the path references a MasterData member; a
successful upstream response on a non-MasterData path gets `Cache-Control:
no-cache, no-store, must-revalidate`; an unsuccessful upstream response has
its headers passed through (with only the CORS override) — and no cache
entry is created in any non-cacheable case. -/
theorem get_miss_cache_classification
    (req : Request) (env : Env) (cache : Cache) (up : UpstreamResponse) (now : String)
    (corsHeaders : HeaderList)
    (hcfg : configOk env = true)
    (hcors : getCorsHeadersForRequest req env = some corsHeaders)
    (hm : req.method = "GET")
    (hprox : isProxiablePath req.url.pathname = true)
    (hmiss : cacheFind cache req.url.href = none) :
    (fetch req env cache up now).upstreamCalled = true ∧
    (upstreamOk up = true → isMasterDataPath req.url.pathname = true →
      getH (fetch req env cache up now).response.headers "Cache-Control" =
        some "public, max-age=3600" ∧
      getH (fetch req env cache up now).response.headers "X-Cache-Status" = some "MISS" ∧
      (fetch req env cache up now).cachePuts = [("GET", req.url.href)]) ∧
    (upstreamOk up = true → isMasterDataPath req.url.pathname = false →
      getH (fetch req env cache up now).response.headers "Cache-Control" =
        some "no-cache, no-store, must-revalidate" ∧
      (fetch req env cache up now).cachePuts = []) ∧
    (upstreamOk up = false →
      (fetch req env cache up now).response.headers = applyCors up.headers corsHeaders ∧
      (fetch req env cache up now).cachePuts = []) ∧
    ((fetch req env cache up now).cachePuts ≠ [] ↔
      (upstreamOk up = true ∧ isMasterDataPath req.url.pathname = true)) := by
  have hm1 : req.method ≠ "OPTIONS" := by rw [hm]; decide
  have hm2 : req.method ≠ "PURGE" := by rw [hm]; decide
  have hfe : fetch req env cache up now =
      { forwardUpstream req corsHeaders up with cacheLookups := [("GET", req.url.href)] } := by
    rw [fetch_eq_routed req env cache up now hcfg hcors,
      routed_proxy req env corsHeaders cache up now hm1 hm2 hprox]
    simp [proxyRoute, hm, hmiss]
  refine ⟨?_, fun hok hmd => ?_, fun hok hmd => ?_, fun hnok => ?_, ?_⟩
  · rw [hfe]
    show (forwardUpstream req corsHeaders up).upstreamCalled = true
    unfold forwardUpstream
    split_ifs <;> rfl
  · have hr : forwardUpstream req corsHeaders up =
        { response :=
            { status := up.status, statusText := up.statusText,
              headers := setH (setH (applyCors up.headers corsHeaders)
                "Cache-Control" "public, max-age=3600") "X-Cache-Status" "MISS",
              body := Body.raw up.body },
          upstreamCalled := true, cacheLookups := [], cacheDeletes := [],
          cachePuts := [("GET", req.url.href)] } := by
      simp [forwardUpstream, hm, hok, hmd]
    refine ⟨?_, ?_, ?_⟩
    · rw [hfe]
      show getH (forwardUpstream req corsHeaders up).response.headers "Cache-Control" = _
      rw [hr]
      show getH (setH (setH (applyCors up.headers corsHeaders)
        "Cache-Control" "public, max-age=3600") "X-Cache-Status" "MISS") "Cache-Control" = _
      rw [getH_setH_ne _ _ (show lowEq "X-Cache-Status" "Cache-Control" = false by decide),
        getH_setH_self]
    · rw [hfe]
      show getH (forwardUpstream req corsHeaders up).response.headers "X-Cache-Status" = _
      rw [hr]
      exact getH_setH_self _ _ _
    · rw [hfe]
      show (forwardUpstream req corsHeaders up).cachePuts = _
      rw [hr]
  · have hr : forwardUpstream req corsHeaders up =
        { response :=
            { status := up.status, statusText := up.statusText,
              headers := setH (applyCors up.headers corsHeaders)
                "Cache-Control" "no-cache, no-store, must-revalidate",
              body := Body.raw up.body },
          upstreamCalled := true, cacheLookups := [], cacheDeletes := [],
          cachePuts := [] } := by
      simp [forwardUpstream, hm, hok, hmd]
    refine ⟨?_, ?_⟩
    · rw [hfe]
      show getH (forwardUpstream req corsHeaders up).response.headers "Cache-Control" = _
      rw [hr]
      exact getH_setH_self _ _ _
    · rw [hfe]
      show (forwardUpstream req corsHeaders up).cachePuts = _
      rw [hr]
  · have hr : forwardUpstream req corsHeaders up =
        { response :=
            { status := up.status, statusText := up.statusText,
              headers := applyCors up.headers corsHeaders,
              body := Body.raw up.body },
          upstreamCalled := true, cacheLookups := [], cacheDeletes := [],
          cachePuts := [] } := by
      simp [forwardUpstream, hnok]
    refine ⟨?_, ?_⟩
    · rw [hfe]
      show (forwardUpstream req corsHeaders up).response.headers = _
      rw [hr]
    · rw [hfe]
      show (forwardUpstream req corsHeaders up).cachePuts = _
      rw [hr]
  · by_cases hok : upstreamOk up = true
    · by_cases hmd : isMasterDataPath req.url.pathname = true
      · have hr : forwardUpstream req corsHeaders up =
            { response :=
                { status := up.status, statusText := up.statusText,
                  headers := setH (setH (applyCors up.headers corsHeaders)
                    "Cache-Control" "public, max-age=3600") "X-Cache-Status" "MISS",
                  body := Body.raw up.body },
              upstreamCalled := true, cacheLookups := [], cacheDeletes := [],
              cachePuts := [("GET", req.url.href)] } := by
          simp [forwardUpstream, hm, hok, hmd]
        rw [hfe]
        show (forwardUpstream req corsHeaders up).cachePuts ≠ [] ↔ _
        rw [hr]
        simp [hok, hmd]
      · have hmd' : isMasterDataPath req.url.pathname = false := by simpa using hmd
        have hr : forwardUpstream req corsHeaders up =
            { response :=
                { status := up.status, statusText := up.statusText,
                  headers := setH (applyCors up.headers corsHeaders)
                    "Cache-Control" "no-cache, no-store, must-revalidate",
                  body := Body.raw up.body },
              upstreamCalled := true, cacheLookups := [], cacheDeletes := [],
              cachePuts := [] } := by
          simp [forwardUpstream, hm, hok, hmd']
        rw [hfe]
        show (forwardUpstream req corsHeaders up).cachePuts ≠ [] ↔ _
        rw [hr]
        simp [hmd']
    · have hnok : upstreamOk up = false := by simpa using hok
      have hr : forwardUpstream req corsHeaders up =
          { response :=
              { status := up.status, statusText := up.statusText,
                headers := applyCors up.headers corsHeaders,
                body := Body.raw up.body },
            upstreamCalled := true, cacheLookups := [], cacheDeletes := [],
            cachePuts := [] } := by
        simp [forwardUpstream, hnok]
      rw [hfe]
      show (forwardUpstream req corsHeaders up).cachePuts ≠ [] ↔ _
      rw [hr]
      simp [hnok]

/-- Witness for the amended C2: a successful upstream GET on a master-data
path gets the cache headers, the MISS marker and the deferred store. -/
theorem get_miss_cache_classification_witness :
    (fetch ⟨"GET", sampleUrl, none, none, none, none⟩ sampleOkEnv [] sampleUp200
        "T").upstreamCalled = true ∧
    getH (fetch ⟨"GET", sampleUrl, none, none, none, none⟩ sampleOkEnv [] sampleUp200
        "T").response.headers "Cache-Control" = some "public, max-age=3600" ∧
    getH (fetch ⟨"GET", sampleUrl, none, none, none, none⟩ sampleOkEnv [] sampleUp200
        "T").response.headers "X-Cache-Status" = some "MISS" ∧
    (fetch ⟨"GET", sampleUrl, none, none, none, none⟩ sampleOkEnv [] sampleUp200
        "T").cachePuts = [("GET", sampleUrl.href)] := by
  have h := get_miss_cache_classification ⟨"GET", sampleUrl, none, none, none, none⟩
    sampleOkEnv [] sampleUp200 "T" wildcardCorsHeaders (by decide) (by decide) rfl
    (by decide) rfl
  exact ⟨h.1, (h.2.1 (by decide) (by decide)).1, (h.2.1 (by decide) (by decide)).2.1,
    (h.2.1 (by decide) (by decide)).2.2⟩

/-- C4 counterexample: the 500 configuration error carries no headers at all,
even though a CORS decision exists for the request (here the wildcard
decision) — so not every error response carries the CORS headers computed for
the request. -/
theorem config_error_response_lacks_cors :
    (fetch ⟨"GET", sampleUrl, none, none, none, none⟩ sampleBadEnv [] sampleUp200
        "T").response.status = 500 ∧
    (fetch ⟨"GET", sampleUrl, none, none, none, none⟩ sampleBadEnv [] sampleUp200
        "T").response.headers = [] ∧
    getCorsHeadersForRequest ⟨"GET", sampleUrl, none, none, none, none⟩ sampleBadEnv =
      some wildcardCorsHeaders :=
  ⟨by decide, by decide, by decide⟩

/-- C4 (amended): the purge-forbidden 403 responses and the unmatched-route
404 response carry the CORS headers computed for the request (the 404 carries
them verbatim, the purge 403s extend them with a Content-Type); the
configuration 500 and the origin-rejection 403 carry no headers — the former
is emitted before CORS evaluation and the latter has no CORS decision. -/
theorem error_responses_cors_policy
    (req : Request) (env : Env) (cache : Cache) (up : UpstreamResponse) (now : String) :
    (configOk env = false →
      (fetch req env cache up now).response.status = 500 ∧
      (fetch req env cache up now).response.headers = []) ∧
    (configOk env = true → getCorsHeadersForRequest req env = none →
      (fetch req env cache up now).response.status = 403 ∧
      (fetch req env cache up now).response.headers = []) ∧
    (∀ corsHeaders : HeaderList, configOk env = true →
      getCorsHeadersForRequest req env = some corsHeaders →
      req.method = "PURGE" → req.url.pathname ≠ "/health" → req.url.pathname ≠ "/" →
      (!(jsTruthy req.xPurgeSecret) || req.xPurgeSecret != env.PURGE_SECRET) = true →
      (fetch req env cache up now).response.status = 403 ∧
      (fetch req env cache up now).response.headers =
        setH corsHeaders "Content-Type" "application/json") ∧
    (∀ corsHeaders : HeaderList, configOk env = true →
      getCorsHeadersForRequest req env = some corsHeaders →
      req.method = "PURGE" → req.url.pathname ≠ "/health" → req.url.pathname ≠ "/" →
      jsTruthy req.xPurgeSecret = true → req.xPurgeSecret = env.PURGE_SECRET →
      isMasterDataPath req.url.pathname = false →
      (fetch req env cache up now).response.status = 403 ∧
      (fetch req env cache up now).response.headers =
        setH corsHeaders "Content-Type" "application/json") ∧
    (∀ corsHeaders : HeaderList, configOk env = true →
      getCorsHeadersForRequest req env = some corsHeaders →
      req.method ≠ "OPTIONS" → req.method ≠ "PURGE" →
      req.url.pathname ≠ "/health" → req.url.pathname ≠ "/" →
      isProxiablePath req.url.pathname = false →
      (fetch req env cache up now).response.status = 404 ∧
      (fetch req env cache up now).response.headers = corsHeaders) := by
  refine ⟨fun hcfg => ?_, fun hcfg hcors => ?_, fun cors hcfg hcors hm hp1 hp2 hbad => ?_,
    fun cors hcfg hcors hm hp1 hp2 h1 h2 hmd => ?_,
    fun cors hcfg hcors hm1 hm2 hp1 hp2 hprox => ?_⟩
  · have he := fetch_config_missing req env cache up now hcfg
    exact ⟨by rw [he]; rfl, by rw [he]; rfl⟩
  · have he := fetch_cors_reject req env cache up now hcfg hcors
    exact ⟨by rw [he]; rfl, by rw [he]; rfl⟩
  · have he := (fetch_eq_routed req env cache up now hcfg hcors).trans
      (routed_purge req env cors cache up now hm hp1 hp2)
    have hfe : fetch req env cache up now =
        noEffect
          { status := 403, statusText := "",
            headers := setH cors "Content-Type" "application/json",
            body := Body.purgeError "Forbidden: Invalid or missing purge secret." } := by
      rw [he]; simp [handlePurgeRequest, hbad]
    exact ⟨by rw [hfe]; rfl, by rw [hfe]; rfl⟩
  · have he := (fetch_eq_routed req env cache up now hcfg hcors).trans
      (routed_purge req env cors cache up now hm hp1 hp2)
    have hbad' : (!(jsTruthy req.xPurgeSecret) || req.xPurgeSecret != env.PURGE_SECRET) =
        false := by
      rw [h1, h2]; simp
    have hfe : fetch req env cache up now =
        noEffect
          { status := 403, statusText := "",
            headers := setH cors "Content-Type" "application/json",
            body := Body.purgeError
              "Purge denied: Endpoint is not a cacheable master data table." } := by
      rw [he]; simp [handlePurgeRequest, hbad', hmd]
    exact ⟨by rw [hfe]; rfl, by rw [hfe]; rfl⟩
  · have he := (fetch_eq_routed req env cache up now hcfg hcors).trans
      (routed_fallback req env cors cache up now hm1 hm2 hp1 hp2 hprox)
    exact ⟨by rw [he]; rfl, by rw [he]; rfl⟩

/-- Witness for the amended C4: the 404 fallback carries the CORS headers,
and the config-500 carries none. -/
theorem error_responses_cors_policy_witness :
    ((fetch ⟨"GET", ⟨"/nope", "", "https://proxy.example/nope"⟩, none, none, none, none⟩
        sampleOkEnv [] sampleUp200 "T").response.status = 404 ∧
      (fetch ⟨"GET", ⟨"/nope", "", "https://proxy.example/nope"⟩, none, none, none, none⟩
        sampleOkEnv [] sampleUp200 "T").response.headers = wildcardCorsHeaders) ∧
    ((fetch ⟨"GET", sampleUrl, none, none, none, none⟩ sampleBadEnv [] sampleUp200
        "T").response.status = 500 ∧
      (fetch ⟨"GET", sampleUrl, none, none, none, none⟩ sampleBadEnv [] sampleUp200
        "T").response.headers = []) := by
  constructor
  · exact (error_responses_cors_policy
      ⟨"GET", ⟨"/nope", "", "https://proxy.example/nope"⟩, none, none, none, none⟩
      sampleOkEnv [] sampleUp200 "T").2.2.2.2 wildcardCorsHeaders (by decide) (by decide)
      (by decide) (by decide) (by decide) (by decide) (by decide)
  · exact (error_responses_cors_policy ⟨"GET", sampleUrl, none, none, none, none⟩
      sampleBadEnv [] sampleUp200 "T").1 (by decide)

/-- C9: every cache key the worker ever uses — for lookup, for the deferred
store, and for the purge handler's delete (which keys a fresh GET request
built from the purge URL) — is GET-keyed; and a request whose method is not
GET performs no cache lookup and no cache store. -/
theorem cache_keys_are_get_only (req : Request) (env : Env) (cache : Cache)
    (up : UpstreamResponse) (now : String) :
    (((fetch req env cache up now).cacheLookups ++ (fetch req env cache up now).cacheDeletes ++
        (fetch req env cache up now).cachePuts).all (fun e => e.1 == "GET")) = true ∧
    (req.method ≠ "GET" →
      (fetch req env cache up now).cacheLookups = [] ∧
      (fetch req env cache up now).cachePuts = []) := by
  unfold fetch fetchRouted handlePurgeRequest proxyRoute forwardUpstream noEffect
  constructor
  · repeat' split
    all_goals simp
  · intro hne
    repeat' split
    all_goals simp_all

/-- Witness for C9 at a concrete PURGE (a non-GET method whose delete effect
is keyed by a GET request). -/
theorem cache_keys_are_get_only_witness :
    (((fetch ⟨"PURGE", sampleUrl, none, none, none, some "s3cret"⟩ sampleOkEnv
          [(sampleUrl.href, ⟨200, "OK", [], "x"⟩)] sampleUp200 "T").cacheLookups ++
        (fetch ⟨"PURGE", sampleUrl, none, none, none, some "s3cret"⟩ sampleOkEnv
          [(sampleUrl.href, ⟨200, "OK", [], "x"⟩)] sampleUp200 "T").cacheDeletes ++
        (fetch ⟨"PURGE", sampleUrl, none, none, none, some "s3cret"⟩ sampleOkEnv
          [(sampleUrl.href, ⟨200, "OK", [], "x"⟩)] sampleUp200 "T").cachePuts).all
      (fun e => e.1 == "GET")) = true ∧
    (fetch ⟨"PURGE", sampleUrl, none, none, none, some "s3cret"⟩ sampleOkEnv
      [(sampleUrl.href, ⟨200, "OK", [], "x"⟩)] sampleUp200 "T").cacheLookups = [] ∧
    (fetch ⟨"PURGE", sampleUrl, none, none, none, some "s3cret"⟩ sampleOkEnv
      [(sampleUrl.href, ⟨200, "OK", [], "x"⟩)] sampleUp200 "T").cachePuts = [] := by
  have h := cache_keys_are_get_only ⟨"PURGE", sampleUrl, none, none, none, some "s3cret"⟩
    sampleOkEnv [(sampleUrl.href, ⟨200, "OK", [], "x"⟩)] sampleUp200 "T"
  exact ⟨h.1, (h.2 (by decide)).1, (h.2 (by decide)).2⟩

end PoysaProxy
